import Mathlib

/-!
# Meltdown live patch: scheduling hot path and lifecycle callbacks

A shallow embedding of

* `sched_switch_tracer` (src/meltdown/context_switch_mm.c), the per-CPU
  table-root switch that runs on every scheduling event, and
* `kgr_post_patch_callback`, `kgr_pre_revert_callback`,
  `kgr_pre_replace_callback` with the two per-CPU work functions
  (src/meltdown/kgr_patch_meltdown.c), the apply / revert / replace
  lifecycle.

Pointers are natural numbers with `0` for `NULL`.  Every call that leaves
the two source files is recorded in a log, so that ordering and
"exactly once" statements can be made about the calls themselves.
-/

namespace Meltdown

/-! ## Per-CPU state -/

/-- Interrupt-table content, as a list of bytes. -/
abbrev Idt := List Nat

/-- Calls made on one processor that touch its local state. -/
inductive HotEvent where
  | set_kern_cr3 (v : Nat)
  | set_user_cr3 (v : Nat)
  | tlbstate_write (v : Nat)
  | barrier
  | cpumask_test_cpu (cpu : Nat) (mm : Nat)
  | flush_tlb_on_return_to_user
  deriving DecidableEq, Repr

/-- Local state of one processor: the two cached table roots, the TLB state
word, the deferred-flush request, the interrupt table it has loaded, the
PCID switch, and the log of local calls. -/
structure percpu where
  kern_cr3 : Nat
  user_cr3 : Nat
  tlbstate : Nat
  flush_on_return : Bool
  idt : Idt
  pcid : Bool
  log : List HotEvent
  deriving DecidableEq, Repr

/-- Value of the kernel constant `TLBSTATE_OK`. -/
def TLBSTATE_OK : Nat := 1

/-- Modelled from the spec: `kgr_kaiser_set_kern_cr3` (kaiser.h is not part of
the sources) stores the kernel-mode root of the per-CPU table-root cache. -/
def kgr_kaiser_set_kern_cr3 (v : Nat) (c : percpu) : percpu :=
  { c with kern_cr3 := v, log := c.log ++ [HotEvent.set_kern_cr3 v] }

/-- Modelled from the spec: `kgr_kaiser_set_user_cr3` (kaiser.h is not part of
the sources) stores the user-mode root of the per-CPU table-root cache. -/
def kgr_kaiser_set_user_cr3 (v : Nat) (c : percpu) : percpu :=
  { c with user_cr3 := v, log := c.log ++ [HotEvent.set_user_cr3 v] }

/-- Modelled from the spec: `kgr_kaiser_get_user_cr3` (kaiser.h is not part of
the sources) reads the user-mode root of the per-CPU table-root cache. -/
def kgr_kaiser_get_user_cr3 (c : percpu) : Nat := c.user_cr3

/-- Modelled from the spec: `kgr_kaiser_flush_tlb_on_return_to_user` (kaiser.h
is not part of the sources) requests a table reload on the next return to
unprivileged mode. -/
def kgr_kaiser_flush_tlb_on_return_to_user (c : percpu) : percpu :=
  { c with flush_on_return := true,
           log := c.log ++ [HotEvent.flush_tlb_on_return_to_user] }

/-- The kernel primitive `this_cpu_write(cpu_tlbstate.state, v)`. -/
def this_cpu_write_tlbstate (v : Nat) (c : percpu) : percpu :=
  { c with tlbstate := v, log := c.log ++ [HotEvent.tlbstate_write v] }

/-- The kernel primitive `barrier()`. -/
def barrier (c : percpu) : percpu :=
  { c with log := c.log ++ [HotEvent.barrier] }

/-- The kernel primitive `cpumask_test_cpu(cpu, mm_cpumask(mm))`: the test is
logged and its answer returned. -/
def cpumask_test_cpu (cpu : Nat) (mm : Nat) (mask : List Nat) (c : percpu) :
    Bool × percpu :=
  (decide (cpu ∈ mask),
   { c with log := c.log ++ [HotEvent.cpumask_test_cpu cpu mm] })

/-! ## The scheduling hot path -/

/-- The two fields of `struct task_struct` the hot path reads. -/
structure task_struct where
  mm : Nat
  active_mm : Nat
  deriving DecidableEq, Repr

/-- What the hot path reads from the rest of the kernel: the unlocked read of
`kgr_meltdown_active()`, the fields `pgd` and `mm_cpumask` of the address
space at a given address, `kgr_mm_user_pgd`, and the address translation
`__pa`. -/
structure Kernel where
  kgr_meltdown_active : Bool
  mm_pgd : Nat → Nat
  mm_cpumask : Nat → List Nat
  kgr_mm_user_pgd : Nat → Nat
  __pa : Nat → Nat

/-- The function `sched_switch_tracer` of context_switch_mm.c, run on
processor `cpu` whose local state is `c`. -/
def sched_switch_tracer (k : Kernel) (cpu : Nat) (prev next : task_struct)
    (c : percpu) : percpu :=
  let next_mm := next.mm
  let user_pgd := k.kgr_mm_user_pgd next_mm
  if !k.kgr_meltdown_active || next_mm == 0 || user_pgd == 0 then
    let c := kgr_kaiser_set_kern_cr3 0 c
    let c := kgr_kaiser_set_user_cr3 0 c
    c
  else
    let prev_mm := prev.active_mm
    if next_mm != prev_mm then
      let c := kgr_kaiser_set_kern_cr3 (k.__pa (k.mm_pgd next_mm)) c
      let c := kgr_kaiser_set_user_cr3 (k.__pa user_pgd) c
      c
    else
      if kgr_kaiser_get_user_cr3 c == 0 then
        let c := kgr_kaiser_set_kern_cr3 (k.__pa (k.mm_pgd next_mm)) c
        let c := kgr_kaiser_set_user_cr3 (k.__pa user_pgd) c
        c
      else
        let c := this_cpu_write_tlbstate TLBSTATE_OK c
        let c := barrier c
        let (present, c) := cpumask_test_cpu cpu next_mm (k.mm_cpumask next_mm) c
        if !present then
          kgr_kaiser_flush_tlb_on_return_to_user c
        else
          c

/-! ## Hot path: concrete data used by the witnesses -/

/-- A kernel context in which the mitigation is read as given, with one address
space at address 100 (standard root 500, shadow root 700, used by processors 0 and 1)
and one at address 200 without a shadow table. -/
def exKernel (active : Bool) : Kernel where
  kgr_meltdown_active := active
  mm_pgd := fun m => if m = 100 then 500 else if m = 200 then 600 else 0
  mm_cpumask := fun m => if m = 100 then [0, 1] else []
  kgr_mm_user_pgd := fun m => if m = 100 then 700 else 0
  __pa := fun v => v + 4096

/-- A processor whose cached roots are the given ones. -/
def exCpu (kern user : Nat) : percpu where
  kern_cr3 := kern
  user_cr3 := user
  tlbstate := 2
  flush_on_return := false
  idt := [1, 2, 3]
  pcid := true
  log := []

/-! ## The shared coordination record and the rest of the system -/

/-- Modelled from the spec: the patch phase `enum patch_state` (shared_data.h
is not part of the sources), in the order the spec lists it; the callbacks test
`!ps`, so `ps_disabled` is the zero value. -/
inductive patch_state where
  | ps_disabled
  | ps_enabled
  | ps_activating
  | ps_active
  | ps_deactivating
  deriving DecidableEq, Repr

/-- The two work functions handed to `kgr_schedule_on_each_cpu`. -/
inductive Work where
  | install_idt_table_repl
  | uninstall_idt_table_repl
  deriving DecidableEq, Repr

/-- Calls made by the lifecycle callbacks, in program order. -/
inductive Event where
  | set_patch_state (old new : patch_state)
  | shared_data_reset (ret : Int)
  | patch_entry_apply_start (capture : Bool)
  | patch_entry_unapply_start
  | schedule_on_each_cpu (work : Work)
  | map_all_thread_stacks (ret : Int)
  | map_all_ds_buffers (ret : Int)
  | free_all_user_pgds
  | mark_dirty
  | patch_entry_drain_start (owner : Nat)
  | register_patcher (owner : Nat)
  deriving DecidableEq, Repr

/-- Modelled from the spec: the shared coordination record
`kgr_meltdown_shared_data` (shared_data.h is not part of the sources).
`orig_idt` is `none` while `orig_idt.idt` is `NULL`;
`prev_patch_entry_drain_start` holds the module whose `patch_entry_drain_start`
the function pointer designates, `none` for `NULL`; `patchers` is the list of
registered mitigation modules. -/
structure shared_data where
  ps : patch_state
  dirty : Bool
  orig_idt : Option Idt
  prev_patch_entry_drain_start : Option Nat
  patchers : List Nat
  deriving DecidableEq, Repr

/-- One loaded installation of the mitigation: `THIS_MODULE` and the
replacement interrupt table it brings. -/
structure Module where
  mod : Nat
  repl_idt : Idt
  deriving DecidableEq, Repr

/-- The whole system as the lifecycle callbacks see it: the shared record, the
processors, the shadow tables currently allocated (address space, shadow
root), the modules whose `patch_entry_draining` flag is set, and the log of
calls. -/
structure World where
  shared : shared_data
  cpus : List percpu
  user_pgds : List (Nat × Nat)
  draining : List Nat
  trace : List Event
  deriving DecidableEq, Repr

/-- Answers of the calls whose outcome the callbacks branch on, and the shadow
tables the stack-mapping step allocates on its way. -/
structure Oracle where
  reset_ret : Int
  map_stacks_ret : Int
  map_stacks_allocs : List (Nat × Nat)
  map_ds_ret : Int
  deriving DecidableEq, Repr

/-- Modelled from the spec: `kgr_meltdown_patch_state` (shared_data.h is not
part of the sources) reads the phase of the shared record. -/
def kgr_meltdown_patch_state (w : World) : patch_state := w.shared.ps

/-- Modelled from the spec: `__kgr_meltdown_set_patch_state` (shared_data.h is
not part of the sources) writes the phase of the shared record, the lock
being held by the caller. -/
def __kgr_meltdown_set_patch_state (ps : patch_state) (w : World) : World :=
  { w with shared := { w.shared with ps := ps },
           trace := w.trace ++ [Event.set_patch_state w.shared.ps ps] }

/-- Modelled from the spec: `kgr_meltdown_set_patch_state` (shared_data.h is
not part of the sources) writes the phase of the shared record under the
lock. -/
def kgr_meltdown_set_patch_state (ps : patch_state) (w : World) : World :=
  __kgr_meltdown_set_patch_state ps w

/-- Modelled from the spec: `kgr_meltdown_shared_data_reset` (shared_data.c is
not part of the sources).  On success it clears `dirty`, discards the
snapshot and the shadow-table bookkeeping; on failure (a non-zero `ret`) it
leaves the prior state intact. -/
def kgr_meltdown_shared_data_reset (ret : Int) (w : World) : Int × World :=
  if ret ≠ 0 then
    (ret, { w with trace := w.trace ++ [Event.shared_data_reset ret] })
  else
    (ret, { w with shared := { w.shared with dirty := false, orig_idt := none },
                   user_pgds := [],
                   trace := w.trace ++ [Event.shared_data_reset ret] })

/-- Modelled from the spec: `kgr_meltdown_shared_data_mark_dirty`
(shared_data.c is not part of the sources) sets `dirty`. -/
def kgr_meltdown_shared_data_mark_dirty (w : World) : World :=
  { w with shared := { w.shared with dirty := true },
           trace := w.trace ++ [Event.mark_dirty] }

/-- Modelled from the spec: `kgr_is_meltdown_patcher` (shared_data.c is not
part of the sources) tells whether the module is a registered mitigation
installation. -/
def kgr_is_meltdown_patcher (new_mod : Nat) (w : World) : Bool :=
  decide (new_mod ∈ w.shared.patchers)

/-- Modelled from the spec: `__kgr_meltdown_register_patcher` (shared_data.c is
not part of the sources) records the module as a mitigation installation. -/
def __kgr_meltdown_register_patcher (me : Module) (w : World) : World :=
  { w with shared := { w.shared with patchers := me.mod :: w.shared.patchers },
           trace := w.trace ++ [Event.register_patcher me.mod] }

/-- The interrupt table in use on the processor that runs the callbacks (the
first one of the list). -/
def current_idt (w : World) : Idt :=
  match w.cpus with
  | [] => []
  | c :: _ => c.idt

/-- Modelled from the spec: `patch_entry_apply_start` (patch_entry.c is not
part of the sources).  Given a non-null destination (`capture`), it stores the
interrupt table in use there. -/
def patch_entry_apply_start (capture : Bool) (w : World) : World :=
  { w with shared := { w.shared with
                         orig_idt := if capture then some (current_idt w)
                                     else w.shared.orig_idt },
           trace := w.trace ++ [Event.patch_entry_apply_start capture] }

/-- Modelled from the spec: `patch_entry_unapply_start` (patch_entry.c is not
part of the sources) starts the removal of the replacement table; it reads
the snapshot and does not change it. -/
def patch_entry_unapply_start (w : World) : World :=
  { w with trace := w.trace ++ [Event.patch_entry_unapply_start] }

/-- Modelled from the spec: `patch_entry_apply_finish_cpu` (patch_entry.c is
not part of the sources) loads the replacement table on this processor. -/
def patch_entry_apply_finish_cpu (me : Module) (c : percpu) : percpu :=
  { c with idt := me.repl_idt }

/-- Modelled from the spec: `patch_entry_unapply_finish_cpu` (patch_entry.c is
not part of the sources) loads the snapshot of the original table on this
processor; with no snapshot there is nothing to load. -/
def patch_entry_unapply_finish_cpu (orig_idt : Option Idt) (c : percpu) : percpu :=
  match orig_idt with
  | some t => { c with idt := t }
  | none => c

/-- Modelled from the spec: `kgr_pcid_enable_cpu` (pcid.h is not part of the
sources). -/
def kgr_pcid_enable_cpu (c : percpu) : percpu := { c with pcid := true }

/-- Modelled from the spec: `kgr_pcid_disable_cpu` (pcid.h is not part of the
sources). -/
def kgr_pcid_disable_cpu (c : percpu) : percpu := { c with pcid := false }

/-- Modelled from the spec: `kgr_schedule_on_each_cpu` (kgraft_hooks.c is not
part of the sources) runs the work function on every processor and waits
for all of them. -/
def kgr_schedule_on_each_cpu (work : Work) (f : percpu → percpu) (w : World) : World :=
  { w with cpus := w.cpus.map f,
           trace := w.trace ++ [Event.schedule_on_each_cpu work] }

/-- Modelled from the spec: `kgr_kaiser_map_all_thread_stacks` (kaiser.c is not
part of the sources) maps every task stack into the shadow address spaces,
allocating shadow tables as it goes, and reports success with zero. -/
def kgr_kaiser_map_all_thread_stacks (o : Oracle) (w : World) : Int × World :=
  (o.map_stacks_ret,
   { w with user_pgds := w.user_pgds ++ o.map_stacks_allocs,
            trace := w.trace ++ [Event.map_all_thread_stacks o.map_stacks_ret] })

/-- Modelled from the spec: `kgr_perf_event_intel_map_all_ds_buffers`
(perf_event_intel_ds.c is not part of the sources) maps every trace buffer
into the shadow address spaces and reports success with zero. -/
def kgr_perf_event_intel_map_all_ds_buffers (o : Oracle) (w : World) : Int × World :=
  (o.map_ds_ret,
   { w with trace := w.trace ++ [Event.map_all_ds_buffers o.map_ds_ret] })

/-- Modelled from the spec: `kgr_free_all_user_pgds` (kaiser.c is not part of
the sources) frees every shadow table. -/
def kgr_free_all_user_pgds (w : World) : World :=
  { w with user_pgds := [], trace := w.trace ++ [Event.free_all_user_pgds] }

/-- Modelled from the spec: `patch_entry_drain_start` of module `owner`
(patch_entry.c is not part of the sources) begins quiescing the users of that
installation. -/
def patch_entry_drain_start (owner : Nat) (w : World) : World :=
  { w with trace := w.trace ++ [Event.patch_entry_drain_start owner] }

/-! ## The lifecycle callbacks -/

/-- The work function `__install_idt_table_repl` of kgr_patch_meltdown.c. -/
def __install_idt_table_repl (me : Module) (c : percpu) : percpu :=
  let c := patch_entry_apply_finish_cpu me c
  kgr_pcid_enable_cpu c

/-- The work function `__uninstall_idt_table_repl` of kgr_patch_meltdown.c;
`orig_idt` is the snapshot held by the shared record. -/
def __uninstall_idt_table_repl (orig_idt : Option Idt) (c : percpu) : percpu :=
  let c := kgr_kaiser_set_kern_cr3 0 c
  let c := kgr_kaiser_set_user_cr3 0 c
  let c := kgr_pcid_disable_cpu c
  patch_entry_unapply_finish_cpu orig_idt c

/-- The function `kgr_post_patch_callback` of kgr_patch_meltdown.c (Apply), run
by installation `me`.  `Except.error` is the call through a `NULL`
`prev_patch_entry_drain_start`, with the state reached at that point. -/
def kgr_post_patch_callback (me : Module) (o : Oracle) (w : World) :
    Except World World :=
  let ps := kgr_meltdown_patch_state w
  if ps = patch_state.ps_disabled then
    Except.ok w
  else
    -- lines 99-116; the flag is false where the source returns
    let (go, w) :=
      if ps = patch_state.ps_enabled then
        if w.shared.dirty then
          let (ret, w) := kgr_meltdown_shared_data_reset o.reset_ret w
          if ret ≠ 0 then
            (false, w)
          else
            (true, kgr_meltdown_set_patch_state patch_state.ps_activating w)
        else
          (true, kgr_meltdown_set_patch_state patch_state.ps_activating w)
      else
        (true, w)
    if !go then
      Except.ok w
    else
      let w := patch_entry_apply_start w.shared.orig_idt.isNone w
      let w := kgr_schedule_on_each_cpu Work.install_idt_table_repl
                 (__install_idt_table_repl me) w
      if ps = patch_state.ps_active then
        match w.shared.prev_patch_entry_drain_start with
        | none => Except.error w
        | some owner =>
          let w := patch_entry_drain_start owner w
          Except.ok
            { w with shared := { w.shared with prev_patch_entry_drain_start := none } }
      else
        let (ret, w) := kgr_kaiser_map_all_thread_stacks o w
        if ret ≠ 0 then
          Except.ok w
        else
          let (ret, w) := kgr_perf_event_intel_map_all_ds_buffers o w
          if ret ≠ 0 then
            Except.ok w
          else
            Except.ok (kgr_meltdown_set_patch_state patch_state.ps_active w)

/-- The function `kgr_pre_revert_callback` of kgr_patch_meltdown.c (Revert),
run by installation `me`. -/
def kgr_pre_revert_callback (me : Module) (w : World) : World :=
  if kgr_meltdown_patch_state w = patch_state.ps_disabled then
    w
  else
    let w := kgr_meltdown_set_patch_state patch_state.ps_deactivating w
    let w := patch_entry_unapply_start w
    let w := kgr_schedule_on_each_cpu Work.uninstall_idt_table_repl
               (__uninstall_idt_table_repl w.shared.orig_idt) w
    let w := kgr_free_all_user_pgds w
    let w := kgr_meltdown_set_patch_state patch_state.ps_enabled w
    let w := kgr_meltdown_shared_data_mark_dirty w
    patch_entry_drain_start me.mod w

/-- The function `kgr_pre_replace_callback` of kgr_patch_meltdown.c (Replace),
run by installation `me` about to be superseded by module `new_mod`. -/
def kgr_pre_replace_callback (me : Module) (new_mod : Nat) (w : World) : World :=
  if kgr_meltdown_patch_state w = patch_state.ps_disabled then
    w
  else if kgr_is_meltdown_patcher new_mod w then
    { w with draining := me.mod :: w.draining,
             shared := { w.shared with prev_patch_entry_drain_start := some me.mod } }
  else
    kgr_pre_revert_callback me w

/-- The locked section that ends `kgr_patch_meltdown_init` (lines 253-257). -/
def kgr_patch_meltdown_init_locked (me : Module) (w : World) : World :=
  let w :=
    if kgr_meltdown_patch_state w = patch_state.ps_disabled then
      __kgr_meltdown_set_patch_state patch_state.ps_enabled w
    else
      w
  __kgr_meltdown_register_patcher me w

/-! ## Sequences of lifecycle calls -/

/-- One call of a lifecycle entry point. -/
inductive Op where
  | apply (me : Module) (o : Oracle)
  | revert (me : Module)
  | replace (me : Module) (new_mod : Nat)
  deriving DecidableEq, Repr

/-- Run one entry point. -/
def step (op : Op) (w : World) : Except World World :=
  match op with
  | Op.apply me o => kgr_post_patch_callback me o w
  | Op.revert me => Except.ok (kgr_pre_revert_callback me w)
  | Op.replace me new_mod => Except.ok (kgr_pre_replace_callback me new_mod w)

/-- Run a sequence of entry points; a faulting call ends the run. -/
def run (ops : List Op) (w : World) : Except World World :=
  match ops with
  | [] => Except.ok w
  | op :: rest =>
    match step op w with
    | Except.ok w1 => run rest w1
    | Except.error w1 => Except.error w1

/-- The state a run ended in, whether it faulted or not. -/
def final (r : Except World World) : World :=
  match r with
  | Except.ok w => w
  | Except.error w => w

/-- The phase writes recorded in a log, oldest first. -/
def phase_writes (t : List Event) : List (patch_state × patch_state) :=
  t.filterMap fun e =>
    match e with
    | Event.set_patch_state old new => some (old, new)
    | _ => none

/-- The edges of the state machine as the spec draws it. -/
def spec_edge (p : patch_state × patch_state) : Bool :=
  match p with
  | (patch_state.ps_disabled, patch_state.ps_enabled) => true
  | (patch_state.ps_enabled, patch_state.ps_activating) => true
  | (patch_state.ps_activating, patch_state.ps_active) => true
  | (patch_state.ps_active, patch_state.ps_deactivating) => true
  | (patch_state.ps_deactivating, patch_state.ps_enabled) => true
  | _ => false

/-- The phase writes the callbacks perform: the edges of the spec and the
entry into `ps_deactivating` from `ps_enabled` and from `ps_activating`. -/
def code_edge (p : patch_state × patch_state) : Bool :=
  spec_edge p ||
  decide (p = (patch_state.ps_enabled, patch_state.ps_deactivating)) ||
  decide (p = (patch_state.ps_activating, patch_state.ps_deactivating))

/-- The calls of lines 132-146 of `kgr_post_patch_callback`, as the answers of
the two mapping steps leave them: the stack mapping; then, if it succeeded,
the trace-buffer mapping; then, if that succeeded too, the write of
`ps_active`. -/
def mapping_events (o : Oracle) : List Event :=
  if o.map_stacks_ret ≠ 0 then
    [Event.map_all_thread_stacks o.map_stacks_ret]
  else if o.map_ds_ret ≠ 0 then
    [Event.map_all_thread_stacks o.map_stacks_ret,
     Event.map_all_ds_buffers o.map_ds_ret]
  else
    [Event.map_all_thread_stacks o.map_stacks_ret,
     Event.map_all_ds_buffers o.map_ds_ret,
     Event.set_patch_state patch_state.ps_activating patch_state.ps_active]

/-- The calls of `kgr_pre_revert_callback` entered in phase `ps`, run by module
`owner`. -/
def revert_events (ps : patch_state) (owner : Nat) : List Event :=
  [Event.set_patch_state ps patch_state.ps_deactivating,
   Event.patch_entry_unapply_start,
   Event.schedule_on_each_cpu Work.uninstall_idt_table_repl,
   Event.free_all_user_pgds,
   Event.set_patch_state patch_state.ps_deactivating patch_state.ps_enabled,
   Event.mark_dirty,
   Event.patch_entry_drain_start owner]

/-! ## Lifecycle: concrete data used by the witnesses -/

/-- Installation A. -/
def modA : Module := { mod := 1, repl_idt := [9, 9] }

/-- Installation B. -/
def modB : Module := { mod := 2, repl_idt := [8, 8] }

/-- A two-processor system in the given phase, both installations registered,
the original table `[1, 2, 3]` loaded everywhere. -/
def exWorld (ps : patch_state) (dirty : Bool) (snap : Option Idt) : World where
  shared := { ps := ps, dirty := dirty, orig_idt := snap,
              prev_patch_entry_drain_start := none, patchers := [2, 1] }
  cpus := [exCpu 0 0, exCpu 0 0]
  user_pgds := []
  draining := []
  trace := []

/-- An oracle whose three calls all succeed. -/
def okOracle : Oracle :=
  { reset_ret := 0, map_stacks_ret := 0, map_stacks_allocs := [(100, 700)], map_ds_ret := 0 }

/-- An oracle whose reset fails. -/
def failResetOracle : Oracle :=
  { reset_ret := -16, map_stacks_ret := 0, map_stacks_allocs := [], map_ds_ret := 0 }

/-- An oracle whose stack mapping fails with `-ENOMEM`. -/
def failStacksOracle : Oracle :=
  { reset_ret := 0, map_stacks_ret := -12, map_stacks_allocs := [(100, 700)],
    map_ds_ret := 0 }

end Meltdown

/-! ## Theorems: the scheduling hot path -/

namespace Meltdown

/-- C1: when the mitigation is read as not active, or `next->mm` is `NULL`, or
the next address space has no shadow table, `sched_switch_tracer` returns with
both per-CPU roots unset, whatever they held on entry; the only calls it makes
are the two stores of zero, so the TLB state is not written and no deferred
flush is requested. -/
theorem sched_switch_tracer_fallback (k : Kernel) (cpu : Nat)
    (prev next : task_struct) (c : percpu)
    (h : k.kgr_meltdown_active = false ∨ next.mm = 0 ∨
         k.kgr_mm_user_pgd next.mm = 0) :
    (sched_switch_tracer k cpu prev next c).kern_cr3 = 0 ∧
    (sched_switch_tracer k cpu prev next c).user_cr3 = 0 ∧
    (sched_switch_tracer k cpu prev next c).tlbstate = c.tlbstate ∧
    (sched_switch_tracer k cpu prev next c).flush_on_return = c.flush_on_return ∧
    (sched_switch_tracer k cpu prev next c).log =
      c.log ++ [HotEvent.set_kern_cr3 0, HotEvent.set_user_cr3 0] := by
  have hc : (!k.kgr_meltdown_active || next.mm == 0 ||
      k.kgr_mm_user_pgd next.mm == 0) = true := by
    rcases h with h | h | h <;> simp [h]
  simp only [sched_switch_tracer, hc, if_true, kgr_kaiser_set_kern_cr3,
    kgr_kaiser_set_user_cr3]
  simp

/-- Witness of C1: the mitigation read as not active, on a processor whose roots
were set. -/
theorem sched_switch_tracer_fallback_witness :
    ((exKernel false).kgr_meltdown_active = false ∨ (task_struct.mk 100 100).mm = 0 ∨
      (exKernel false).kgr_mm_user_pgd (task_struct.mk 100 100).mm = 0) ∧
    (sched_switch_tracer (exKernel false) 0 ⟨100, 100⟩ ⟨100, 100⟩ (exCpu 5 6)).kern_cr3 = 0 ∧
    (sched_switch_tracer (exKernel false) 0 ⟨100, 100⟩ ⟨100, 100⟩ (exCpu 5 6)).user_cr3 = 0 ∧
    (sched_switch_tracer (exKernel false) 0 ⟨100, 100⟩ ⟨100, 100⟩ (exCpu 5 6)).tlbstate =
      (exCpu 5 6).tlbstate ∧
    (sched_switch_tracer (exKernel false) 0 ⟨100, 100⟩ ⟨100, 100⟩ (exCpu 5 6)).flush_on_return =
      (exCpu 5 6).flush_on_return ∧
    (sched_switch_tracer (exKernel false) 0 ⟨100, 100⟩ ⟨100, 100⟩ (exCpu 5 6)).log =
      (exCpu 5 6).log ++ [HotEvent.set_kern_cr3 0, HotEvent.set_user_cr3 0] :=
  ⟨Or.inl rfl,
   sched_switch_tracer_fallback (exKernel false) 0 ⟨100, 100⟩ ⟨100, 100⟩ (exCpu 5 6)
     (Or.inl rfl)⟩

/-- C2: with the mitigation active, `next->mm` non-null and owning a shadow
root, if `next->mm` differs from `prev->active_mm`, or is the same but the
per-CPU user root was unset on entry, then on return the kernel root is the
physical address of the standard root of `next->mm`, the user root is the
physical address of the shadow root, and the only calls made are the two
stores: the TLB state is not written and no deferred flush is requested. -/
theorem sched_switch_tracer_load (k : Kernel) (cpu : Nat)
    (prev next : task_struct) (c : percpu)
    (hact : k.kgr_meltdown_active = true) (hmm : next.mm ≠ 0)
    (hu : k.kgr_mm_user_pgd next.mm ≠ 0)
    (h : next.mm ≠ prev.active_mm ∨ (next.mm = prev.active_mm ∧ c.user_cr3 = 0)) :
    (sched_switch_tracer k cpu prev next c).kern_cr3 = k.__pa (k.mm_pgd next.mm) ∧
    (sched_switch_tracer k cpu prev next c).user_cr3 =
      k.__pa (k.kgr_mm_user_pgd next.mm) ∧
    (sched_switch_tracer k cpu prev next c).tlbstate = c.tlbstate ∧
    (sched_switch_tracer k cpu prev next c).flush_on_return = c.flush_on_return ∧
    (sched_switch_tracer k cpu prev next c).log =
      c.log ++ [HotEvent.set_kern_cr3 (k.__pa (k.mm_pgd next.mm)),
                HotEvent.set_user_cr3 (k.__pa (k.kgr_mm_user_pgd next.mm))] := by
  have hc : (!k.kgr_meltdown_active || next.mm == 0 ||
      k.kgr_mm_user_pgd next.mm == 0) = false := by
    simp [hact, hmm, hu]
  rcases h with h | ⟨h1, h2⟩
  · have hne : (next.mm != prev.active_mm) = true := by simp [h]
    simp only [sched_switch_tracer, hc, hne, if_true, kgr_kaiser_set_kern_cr3,
      kgr_kaiser_set_user_cr3]
    simp
  · have hne : (next.mm != prev.active_mm) = false := by simp [h1]
    have hz : (kgr_kaiser_get_user_cr3 c == 0) = true := by
      simp [kgr_kaiser_get_user_cr3, h2]
    simp only [sched_switch_tracer, hc, hne, hz, if_true, kgr_kaiser_set_kern_cr3,
      kgr_kaiser_set_user_cr3]
    simp

/-- Witness of C2: the same address space as before, the user root unset on
entry. -/
theorem sched_switch_tracer_load_witness :
    ((task_struct.mk 100 100).mm ≠ (task_struct.mk 100 100).active_mm ∨
      ((task_struct.mk 100 100).mm = (task_struct.mk 100 100).active_mm ∧
        (exCpu 5 0).user_cr3 = 0)) ∧
    (sched_switch_tracer (exKernel true) 0 ⟨100, 100⟩ ⟨100, 100⟩ (exCpu 5 0)).kern_cr3 =
      (exKernel true).__pa ((exKernel true).mm_pgd 100) ∧
    (sched_switch_tracer (exKernel true) 0 ⟨100, 100⟩ ⟨100, 100⟩ (exCpu 5 0)).user_cr3 =
      (exKernel true).__pa ((exKernel true).kgr_mm_user_pgd 100) ∧
    (sched_switch_tracer (exKernel true) 0 ⟨100, 100⟩ ⟨100, 100⟩ (exCpu 5 0)).tlbstate =
      (exCpu 5 0).tlbstate ∧
    (sched_switch_tracer (exKernel true) 0 ⟨100, 100⟩ ⟨100, 100⟩ (exCpu 5 0)).flush_on_return =
      (exCpu 5 0).flush_on_return ∧
    (sched_switch_tracer (exKernel true) 0 ⟨100, 100⟩ ⟨100, 100⟩ (exCpu 5 0)).log =
      (exCpu 5 0).log ++
        [HotEvent.set_kern_cr3 ((exKernel true).__pa ((exKernel true).mm_pgd 100)),
         HotEvent.set_user_cr3 ((exKernel true).__pa ((exKernel true).kgr_mm_user_pgd 100))] :=
  ⟨Or.inr ⟨rfl, rfl⟩,
   sched_switch_tracer_load (exKernel true) 0 ⟨100, 100⟩ ⟨100, 100⟩ (exCpu 5 0)
     rfl (by decide) (by decide) (Or.inr ⟨rfl, rfl⟩)⟩

/-- C3: with the mitigation active, `next->mm` non-null with a shadow table and
equal to `prev->active_mm`, and the per-CPU user root already set, both roots
are left as they were; the TLB state is written to `TLBSTATE_OK`, then the
barrier, then the membership test, in this order; and the deferred flush is
requested exactly when this processor is not in the active-CPU set of
`next->mm`. -/
theorem sched_switch_tracer_same_mm (k : Kernel) (cpu : Nat)
    (prev next : task_struct) (c : percpu)
    (hact : k.kgr_meltdown_active = true) (hmm : next.mm ≠ 0)
    (hu : k.kgr_mm_user_pgd next.mm ≠ 0)
    (hsame : next.mm = prev.active_mm) (hset : c.user_cr3 ≠ 0) :
    (sched_switch_tracer k cpu prev next c).kern_cr3 = c.kern_cr3 ∧
    (sched_switch_tracer k cpu prev next c).user_cr3 = c.user_cr3 ∧
    (sched_switch_tracer k cpu prev next c).tlbstate = TLBSTATE_OK ∧
    ((sched_switch_tracer k cpu prev next c).log =
        c.log ++ [HotEvent.tlbstate_write TLBSTATE_OK, HotEvent.barrier,
                  HotEvent.cpumask_test_cpu cpu next.mm] ++
          (if cpu ∈ k.mm_cpumask next.mm then []
           else [HotEvent.flush_tlb_on_return_to_user])) ∧
    (HotEvent.flush_tlb_on_return_to_user ∈
        (sched_switch_tracer k cpu prev next c).log.drop c.log.length ↔
      cpu ∉ k.mm_cpumask next.mm) ∧
    (cpu ∉ k.mm_cpumask next.mm →
      (sched_switch_tracer k cpu prev next c).flush_on_return = true) ∧
    (cpu ∈ k.mm_cpumask next.mm →
      (sched_switch_tracer k cpu prev next c).flush_on_return = c.flush_on_return) := by
  have hc : (!k.kgr_meltdown_active || next.mm == 0 ||
      k.kgr_mm_user_pgd next.mm == 0) = false := by
    simp [hact, hmm, hu]
  have hne : (next.mm != prev.active_mm) = false := by simp [hsame]
  have hz : (kgr_kaiser_get_user_cr3 c == 0) = false := by
    simp [kgr_kaiser_get_user_cr3, hset]
  by_cases hin : cpu ∈ k.mm_cpumask next.mm
  · simp only [sched_switch_tracer, hc, hne, hz, cpumask_test_cpu, barrier,
      this_cpu_write_tlbstate, kgr_kaiser_flush_tlb_on_return_to_user]
    simp [hin]
  · simp only [sched_switch_tracer, hc, hne, hz, cpumask_test_cpu, barrier,
      this_cpu_write_tlbstate, kgr_kaiser_flush_tlb_on_return_to_user]
    simp [hin]

/-- Witness of C3: processor 5 is not in the active-CPU set of the address space
it returns to, so the deferred flush is requested and the roots stay. -/
theorem sched_switch_tracer_same_mm_witness :
    ((exKernel true).kgr_meltdown_active = true ∧ (task_struct.mk 100 100).mm ≠ 0 ∧
      (exKernel true).kgr_mm_user_pgd (task_struct.mk 100 100).mm ≠ 0 ∧
      (task_struct.mk 100 100).mm = (task_struct.mk 100 100).active_mm ∧
      (exCpu 5 6).user_cr3 ≠ 0) ∧
    (sched_switch_tracer (exKernel true) 5 ⟨100, 100⟩ ⟨100, 100⟩ (exCpu 5 6)).kern_cr3 =
      (exCpu 5 6).kern_cr3 ∧
    (sched_switch_tracer (exKernel true) 5 ⟨100, 100⟩ ⟨100, 100⟩ (exCpu 5 6)).user_cr3 =
      (exCpu 5 6).user_cr3 ∧
    (sched_switch_tracer (exKernel true) 5 ⟨100, 100⟩ ⟨100, 100⟩ (exCpu 5 6)).tlbstate =
      TLBSTATE_OK :=
  ⟨⟨rfl, by decide, by decide, rfl, by decide⟩,
   (sched_switch_tracer_same_mm (exKernel true) 5 ⟨100, 100⟩ ⟨100, 100⟩ (exCpu 5 6)
      rfl (by decide) (by decide) rfl (by decide)).1,
   (sched_switch_tracer_same_mm (exKernel true) 5 ⟨100, 100⟩ ⟨100, 100⟩ (exCpu 5 6)
      rfl (by decide) (by decide) rfl (by decide)).2.1,
   (sched_switch_tracer_same_mm (exKernel true) 5 ⟨100, 100⟩ ⟨100, 100⟩ (exCpu 5 6)
      rfl (by decide) (by decide) rfl (by decide)).2.2.1⟩

end Meltdown

/-! ## Theorems: Apply -/

namespace Meltdown

/-- C4: clean handover.  With A active and A replaced by a registered
mitigation module B, the Apply of B entered in phase `ps_active` returns after
exactly three calls: the start of the table replacement, the install on every
processor, and then, once, the drain start A published.  No mapping step runs,
the phase is not written and stays `ps_active`, the shadow tables are not
touched, every processor has the table of B loaded, and
`prev_patch_entry_drain_start` is `NULL` on return. -/
theorem post_patch_clean_handover (A B : Module) (o : Oracle) (w : World)
    (hact : w.shared.ps = patch_state.ps_active)
    (hB : kgr_is_meltdown_patcher B.mod w = true) :
    ∃ w2, kgr_post_patch_callback B o (kgr_pre_replace_callback A B.mod w) = Except.ok w2 ∧
      w2.trace = w.trace ++
        [Event.patch_entry_apply_start w.shared.orig_idt.isNone,
         Event.schedule_on_each_cpu Work.install_idt_table_repl,
         Event.patch_entry_drain_start A.mod] ∧
      w2.shared.ps = patch_state.ps_active ∧
      w2.shared.prev_patch_entry_drain_start = none ∧
      w2.user_pgds = w.user_pgds ∧
      (∀ c ∈ w2.cpus, c.idt = B.repl_idt) := by
  simp [kgr_post_patch_callback, kgr_pre_replace_callback, kgr_meltdown_patch_state, hact, hB,
    patch_entry_apply_start, kgr_schedule_on_each_cpu, patch_entry_drain_start,
    __install_idt_table_repl, patch_entry_apply_finish_cpu, kgr_pcid_enable_cpu]

/-- Witness of C4: A active on two processors, B registered. -/
theorem post_patch_clean_handover_witness :
    ((exWorld patch_state.ps_active false (some [1, 2, 3])).shared.ps = patch_state.ps_active ∧
      kgr_is_meltdown_patcher modB.mod (exWorld patch_state.ps_active false (some [1, 2, 3]))
        = true) ∧
    ∃ w2, kgr_post_patch_callback modB okOracle
        (kgr_pre_replace_callback modA modB.mod
          (exWorld patch_state.ps_active false (some [1, 2, 3]))) = Except.ok w2 ∧
      w2.trace = (exWorld patch_state.ps_active false (some [1, 2, 3])).trace ++
        [Event.patch_entry_apply_start
           (exWorld patch_state.ps_active false (some [1, 2, 3])).shared.orig_idt.isNone,
         Event.schedule_on_each_cpu Work.install_idt_table_repl,
         Event.patch_entry_drain_start modA.mod] ∧
      w2.shared.ps = patch_state.ps_active ∧
      w2.shared.prev_patch_entry_drain_start = none ∧
      w2.user_pgds = (exWorld patch_state.ps_active false (some [1, 2, 3])).user_pgds ∧
      (∀ c ∈ w2.cpus, c.idt = modB.repl_idt) :=
  ⟨⟨rfl, by decide⟩,
   post_patch_clean_handover modA modB okOracle
     (exWorld patch_state.ps_active false (some [1, 2, 3])) rfl (by decide)⟩

/-- C5: dirty handover.  Apply entered in phase `ps_enabled`:
* with `dirty` set and a failing reset, the reset is the only call made and
  Apply returns with the record, the processors and the shadow tables as they
  were (phase `ps_enabled`; no snapshot, no dispatch, no mapping);
* with `dirty` set and a succeeding reset, the reset is called once, before
  the write of `ps_activating`, the snapshot and the install; the start of
  the replacement is given the snapshot slot, so the old snapshot is gone and
  the table in use is captured anew; activation goes on with the mapping
  steps;
* with `dirty` clear, the calls start with the write of `ps_activating`;
and no reset occurs among the mapping steps, so the reset is called once in
the first two cases and not at all in the third. -/
theorem post_patch_dirty_handover (me : Module) (o : Oracle) (w : World)
    (hps : w.shared.ps = patch_state.ps_enabled) :
    (w.shared.dirty = true → o.reset_ret ≠ 0 →
      kgr_post_patch_callback me o w =
        Except.ok { w with trace := w.trace ++ [Event.shared_data_reset o.reset_ret] }) ∧
    (w.shared.dirty = true → o.reset_ret = 0 →
      ∃ w2, kgr_post_patch_callback me o w = Except.ok w2 ∧
        w2.trace = w.trace ++
          [Event.shared_data_reset 0,
           Event.set_patch_state patch_state.ps_enabled patch_state.ps_activating,
           Event.patch_entry_apply_start true,
           Event.schedule_on_each_cpu Work.install_idt_table_repl] ++ mapping_events o ∧
        w2.shared.orig_idt = some (current_idt w) ∧
        w2.shared.dirty = false) ∧
    (w.shared.dirty = false →
      ∃ w2, kgr_post_patch_callback me o w = Except.ok w2 ∧
        w2.trace = w.trace ++
          [Event.set_patch_state patch_state.ps_enabled patch_state.ps_activating,
           Event.patch_entry_apply_start w.shared.orig_idt.isNone,
           Event.schedule_on_each_cpu Work.install_idt_table_repl] ++ mapping_events o) ∧
    (∀ r, Event.shared_data_reset r ∉ mapping_events o) := by
  refine ⟨?_, ?_, ?_, ?_⟩
  · intro hd hr
    simp [kgr_post_patch_callback, kgr_meltdown_patch_state, hps, hd, hr,
      kgr_meltdown_shared_data_reset]
  · intro hd hr
    by_cases h1 : o.map_stacks_ret = 0 <;> by_cases h2 : o.map_ds_ret = 0 <;>
    simp [kgr_post_patch_callback, kgr_meltdown_patch_state, hps, hd, hr, h1, h2,
      kgr_meltdown_shared_data_reset, kgr_meltdown_set_patch_state,
      __kgr_meltdown_set_patch_state,
      patch_entry_apply_start, kgr_schedule_on_each_cpu,
      kgr_kaiser_map_all_thread_stacks, kgr_perf_event_intel_map_all_ds_buffers,
      mapping_events, current_idt]
  · intro hd
    by_cases h1 : o.map_stacks_ret = 0 <;> by_cases h2 : o.map_ds_ret = 0 <;>
    simp [kgr_post_patch_callback, kgr_meltdown_patch_state, hps, hd, h1, h2,
      kgr_meltdown_shared_data_reset, kgr_meltdown_set_patch_state,
      __kgr_meltdown_set_patch_state,
      patch_entry_apply_start, kgr_schedule_on_each_cpu,
      kgr_kaiser_map_all_thread_stacks, kgr_perf_event_intel_map_all_ds_buffers,
      mapping_events, current_idt]
  · intro r
    by_cases h1 : o.map_stacks_ret = 0 <;> by_cases h2 : o.map_ds_ret = 0 <;>
    simp [mapping_events, h1, h2]

/-- Witness of C5: a dirty record holding the stale snapshot `[7]`; once with a
failing reset, once with a succeeding one. -/
theorem post_patch_dirty_handover_witness :
    ((exWorld patch_state.ps_enabled true (some [7])).shared.ps = patch_state.ps_enabled ∧
      (exWorld patch_state.ps_enabled true (some [7])).shared.dirty = true ∧
      failResetOracle.reset_ret ≠ 0 ∧ okOracle.reset_ret = 0) ∧
    kgr_post_patch_callback modA failResetOracle (exWorld patch_state.ps_enabled true (some [7])) =
      Except.ok { exWorld patch_state.ps_enabled true (some [7]) with
        trace := (exWorld patch_state.ps_enabled true (some [7])).trace ++
          [Event.shared_data_reset failResetOracle.reset_ret] } ∧
    ∃ w2, kgr_post_patch_callback modA okOracle (exWorld patch_state.ps_enabled true (some [7])) =
        Except.ok w2 ∧
      w2.trace = (exWorld patch_state.ps_enabled true (some [7])).trace ++
        [Event.shared_data_reset 0,
         Event.set_patch_state patch_state.ps_enabled patch_state.ps_activating,
         Event.patch_entry_apply_start true,
         Event.schedule_on_each_cpu Work.install_idt_table_repl] ++ mapping_events okOracle ∧
      w2.shared.orig_idt = some (current_idt (exWorld patch_state.ps_enabled true (some [7]))) ∧
      w2.shared.dirty = false :=
  ⟨⟨rfl, rfl, by decide, rfl⟩,
   (post_patch_dirty_handover modA failResetOracle
      (exWorld patch_state.ps_enabled true (some [7])) rfl).1 rfl (by decide),
   (post_patch_dirty_handover modA okOracle
      (exWorld patch_state.ps_enabled true (some [7])) rfl).2.1 rfl rfl⟩

/-- C6: fresh activation.  Apply entered in phase `ps_enabled` whose reset, if
one is due, succeeds: `ps_activating` is written before the install is
dispatched to the processors, the mapping steps follow, and on return the
phase is `ps_active` exactly when both mapping steps answered zero; otherwise
it is `ps_activating`, with no write back to `ps_enabled`; after a failed
stack mapping the trace-buffer mapping is not called. -/
theorem post_patch_fresh_activation (me : Module) (o : Oracle) (w : World)
    (hps : w.shared.ps = patch_state.ps_enabled)
    (hreset : w.shared.dirty = true → o.reset_ret = 0) :
    ∃ w2, kgr_post_patch_callback me o w = Except.ok w2 ∧
      w2.trace = w.trace ++
        (if w.shared.dirty then [Event.shared_data_reset o.reset_ret] else []) ++
        [Event.set_patch_state patch_state.ps_enabled patch_state.ps_activating,
         Event.patch_entry_apply_start (w.shared.dirty || w.shared.orig_idt.isNone),
         Event.schedule_on_each_cpu Work.install_idt_table_repl] ++ mapping_events o ∧
      (w2.shared.ps = patch_state.ps_active ↔ (o.map_stacks_ret = 0 ∧ o.map_ds_ret = 0)) ∧
      (¬ (o.map_stacks_ret = 0 ∧ o.map_ds_ret = 0) →
        w2.shared.ps = patch_state.ps_activating) ∧
      (o.map_stacks_ret ≠ 0 →
        mapping_events o = [Event.map_all_thread_stacks o.map_stacks_ret]) ∧
      (o.map_stacks_ret = 0 → o.map_ds_ret ≠ 0 →
        mapping_events o = [Event.map_all_thread_stacks o.map_stacks_ret,
                            Event.map_all_ds_buffers o.map_ds_ret]) ∧
      (∀ c ∈ w2.cpus, c.idt = me.repl_idt) := by
  cases hd : w.shared.dirty
  · by_cases h1 : o.map_stacks_ret = 0 <;> by_cases h2 : o.map_ds_ret = 0 <;>
    simp [kgr_post_patch_callback, kgr_meltdown_patch_state, hps, hd, h1, h2,
      kgr_meltdown_shared_data_reset, kgr_meltdown_set_patch_state,
      __kgr_meltdown_set_patch_state,
      patch_entry_apply_start, kgr_schedule_on_each_cpu,
      kgr_kaiser_map_all_thread_stacks, kgr_perf_event_intel_map_all_ds_buffers,
      mapping_events, __install_idt_table_repl, patch_entry_apply_finish_cpu,
      kgr_pcid_enable_cpu]
  · have hr := hreset hd
    by_cases h1 : o.map_stacks_ret = 0 <;> by_cases h2 : o.map_ds_ret = 0 <;>
    simp [kgr_post_patch_callback, kgr_meltdown_patch_state, hps, hd, hr, h1, h2,
      kgr_meltdown_shared_data_reset, kgr_meltdown_set_patch_state,
      __kgr_meltdown_set_patch_state,
      patch_entry_apply_start, kgr_schedule_on_each_cpu,
      kgr_kaiser_map_all_thread_stacks, kgr_perf_event_intel_map_all_ds_buffers,
      mapping_events, __install_idt_table_repl, patch_entry_apply_finish_cpu,
      kgr_pcid_enable_cpu]

/-- Witness of C6: a clean record in phase `ps_enabled` and a failing stack
mapping. -/
theorem post_patch_fresh_activation_witness :
    ((exWorld patch_state.ps_enabled false none).shared.ps = patch_state.ps_enabled ∧
      ((exWorld patch_state.ps_enabled false none).shared.dirty = true →
        failStacksOracle.reset_ret = 0)) ∧
    ∃ w2, kgr_post_patch_callback modA failStacksOracle
        (exWorld patch_state.ps_enabled false none) = Except.ok w2 ∧
      w2.trace = (exWorld patch_state.ps_enabled false none).trace ++
        (if (exWorld patch_state.ps_enabled false none).shared.dirty
         then [Event.shared_data_reset failStacksOracle.reset_ret] else []) ++
        [Event.set_patch_state patch_state.ps_enabled patch_state.ps_activating,
         Event.patch_entry_apply_start
           ((exWorld patch_state.ps_enabled false none).shared.dirty ||
            (exWorld patch_state.ps_enabled false none).shared.orig_idt.isNone),
         Event.schedule_on_each_cpu Work.install_idt_table_repl] ++
        mapping_events failStacksOracle ∧
      (w2.shared.ps = patch_state.ps_active ↔
        (failStacksOracle.map_stacks_ret = 0 ∧ failStacksOracle.map_ds_ret = 0)) ∧
      (¬ (failStacksOracle.map_stacks_ret = 0 ∧ failStacksOracle.map_ds_ret = 0) →
        w2.shared.ps = patch_state.ps_activating) ∧
      (failStacksOracle.map_stacks_ret ≠ 0 →
        mapping_events failStacksOracle =
          [Event.map_all_thread_stacks failStacksOracle.map_stacks_ret]) ∧
      (failStacksOracle.map_stacks_ret = 0 → failStacksOracle.map_ds_ret ≠ 0 →
        mapping_events failStacksOracle =
          [Event.map_all_thread_stacks failStacksOracle.map_stacks_ret,
           Event.map_all_ds_buffers failStacksOracle.map_ds_ret]) ∧
      (∀ c ∈ w2.cpus, c.idt = modA.repl_idt) :=
  ⟨⟨rfl, fun _ => rfl⟩,
   post_patch_fresh_activation modA failStacksOracle
     (exWorld patch_state.ps_enabled false none) rfl (fun _ => rfl)⟩

end Meltdown

/-! ## Theorems: Replace and Revert -/

namespace Meltdown

/-- C7, as stated, fails: Replace in phase `ps_enabled` by a registered
mitigation module publishes the drain start of A, yet the Apply of the successor,
entered in phase `ps_enabled`, activates afresh, reaches `ps_active` and never
calls the published drain start, which stays in the record. -/
theorem pre_replace_callback_never_invoked :
    kgr_is_meltdown_patcher modB.mod (exWorld patch_state.ps_enabled false none) = true ∧
    (kgr_pre_replace_callback modA modB.mod
        (exWorld patch_state.ps_enabled false none)).shared.prev_patch_entry_drain_start
      = some modA.mod ∧
    (final (kgr_post_patch_callback modB okOracle
        (kgr_pre_replace_callback modA modB.mod
          (exWorld patch_state.ps_enabled false none)))).shared.ps = patch_state.ps_active ∧
    List.count (Event.patch_entry_drain_start modA.mod)
      (final (kgr_post_patch_callback modB okOracle
        (kgr_pre_replace_callback modA modB.mod
          (exWorld patch_state.ps_enabled false none)))).trace = 0 ∧
    (final (kgr_post_patch_callback modB okOracle
        (kgr_pre_replace_callback modA modB.mod
          (exWorld patch_state.ps_enabled false none)))).shared.prev_patch_entry_drain_start
      = some modA.mod := by
  decide

/-- C7, amended: Replace is a no-op in phase `ps_disabled`; in any other phase
and with a registered mitigation module as successor it sets the draining flag
of this installation and publishes its drain start, changing nothing else
(phase, `dirty`, snapshot, processors, shadow tables and log stay); when the
phase was `ps_active`, the Apply of the successor then calls the published
drain start once, after the install, and clears it; with a successor that is
not a mitigation module Replace is Revert. -/
theorem pre_replace_amended (A B : Module) (o : Oracle) (w : World) :
    (w.shared.ps = patch_state.ps_disabled → kgr_pre_replace_callback A B.mod w = w) ∧
    (w.shared.ps ≠ patch_state.ps_disabled → kgr_is_meltdown_patcher B.mod w = true →
      kgr_pre_replace_callback A B.mod w =
        { w with draining := A.mod :: w.draining,
                 shared := { w.shared with prev_patch_entry_drain_start := some A.mod } }) ∧
    (w.shared.ps = patch_state.ps_active → kgr_is_meltdown_patcher B.mod w = true →
      ∃ w2, kgr_post_patch_callback B o (kgr_pre_replace_callback A B.mod w) = Except.ok w2 ∧
        w2.trace = w.trace ++
          [Event.patch_entry_apply_start w.shared.orig_idt.isNone,
           Event.schedule_on_each_cpu Work.install_idt_table_repl,
           Event.patch_entry_drain_start A.mod] ∧
        w2.shared.prev_patch_entry_drain_start = none) ∧
    (kgr_is_meltdown_patcher B.mod w = false →
      kgr_pre_replace_callback A B.mod w = kgr_pre_revert_callback A w) := by
  refine ⟨?_, ?_, ?_, ?_⟩
  · intro h
    simp [kgr_pre_replace_callback, kgr_meltdown_patch_state, h]
  · intro h hB
    simp [kgr_pre_replace_callback, kgr_meltdown_patch_state, h, hB]
  · intro hact hB
    simp [kgr_post_patch_callback, kgr_pre_replace_callback, kgr_meltdown_patch_state, hact, hB,
      patch_entry_apply_start, kgr_schedule_on_each_cpu, patch_entry_drain_start]
  · intro hB
    by_cases h : w.shared.ps = patch_state.ps_disabled
    · simp [kgr_pre_replace_callback, kgr_pre_revert_callback, kgr_meltdown_patch_state, h]
    · simp [kgr_pre_replace_callback, kgr_meltdown_patch_state, h, hB]

/-- Witness of the amended C7: A active and superseded by the registered B; A
active and superseded by module 3, which is not registered. -/
theorem pre_replace_amended_witness :
    ((exWorld patch_state.ps_active false (some [1, 2, 3])).shared.ps = patch_state.ps_active ∧
      kgr_is_meltdown_patcher modB.mod (exWorld patch_state.ps_active false (some [1, 2, 3]))
        = true ∧
      kgr_is_meltdown_patcher (Module.mk 3 []).mod
        (exWorld patch_state.ps_active false (some [1, 2, 3])) = false) ∧
    (∃ w2, kgr_post_patch_callback modB okOracle
        (kgr_pre_replace_callback modA modB.mod
          (exWorld patch_state.ps_active false (some [1, 2, 3]))) = Except.ok w2 ∧
      w2.trace = (exWorld patch_state.ps_active false (some [1, 2, 3])).trace ++
        [Event.patch_entry_apply_start
           (exWorld patch_state.ps_active false (some [1, 2, 3])).shared.orig_idt.isNone,
         Event.schedule_on_each_cpu Work.install_idt_table_repl,
         Event.patch_entry_drain_start modA.mod] ∧
      w2.shared.prev_patch_entry_drain_start = none) ∧
    kgr_pre_replace_callback modA (Module.mk 3 []).mod
        (exWorld patch_state.ps_active false (some [1, 2, 3])) =
      kgr_pre_revert_callback modA (exWorld patch_state.ps_active false (some [1, 2, 3])) :=
  ⟨⟨rfl, by decide, by decide⟩,
   (pre_replace_amended modA modB okOracle
      (exWorld patch_state.ps_active false (some [1, 2, 3]))).2.2.1 rfl (by decide),
   (pre_replace_amended modA (Module.mk 3 []) okOracle
      (exWorld patch_state.ps_active false (some [1, 2, 3]))).2.2.2 (by decide)⟩

/-- C8: round trip.  From phase `ps_enabled`, an Apply that returns in phase
`ps_active` leaves a snapshot in the record: the one it found, or, when there
was none or the record was dirty and reset, the table in use at entry.  The
Revert that follows loads that snapshot on every processor, leaves both
per-CPU roots of every processor unset, no shadow table allocated, the phase
`ps_enabled`, `dirty` set and the snapshot as it was. -/
theorem apply_revert_roundtrip (me : Module) (o : Oracle) (w w1 : World)
    (hps : w.shared.ps = patch_state.ps_enabled)
    (hap : kgr_post_patch_callback me o w = Except.ok w1)
    (hact : w1.shared.ps = patch_state.ps_active) :
    w1.shared.orig_idt =
      some (if w.shared.dirty then current_idt w
            else w.shared.orig_idt.getD (current_idt w)) ∧
    (∀ c ∈ (kgr_pre_revert_callback me w1).cpus,
      some c.idt = w1.shared.orig_idt ∧ c.kern_cr3 = 0 ∧ c.user_cr3 = 0) ∧
    (kgr_pre_revert_callback me w1).cpus.length = w.cpus.length ∧
    (kgr_pre_revert_callback me w1).user_pgds = [] ∧
    (kgr_pre_revert_callback me w1).shared.ps = patch_state.ps_enabled ∧
    (kgr_pre_revert_callback me w1).shared.dirty = true ∧
    (kgr_pre_revert_callback me w1).shared.orig_idt = w1.shared.orig_idt := by
  have hne : w1.shared.ps ≠ patch_state.ps_disabled := by simp [hact]
  have key : w1.shared.orig_idt =
      some (if w.shared.dirty then current_idt w
            else w.shared.orig_idt.getD (current_idt w)) ∧
      w1.cpus.length = w.cpus.length := by
    cases ho : w.shared.orig_idt <;> cases hd : w.shared.dirty <;>
    by_cases hr : o.reset_ret = 0 <;>
    by_cases h1 : o.map_stacks_ret = 0 <;> by_cases h2 : o.map_ds_ret = 0 <;>
    simp [kgr_post_patch_callback, kgr_meltdown_patch_state, hps, hd, hr, h1, h2, ho,
      kgr_meltdown_shared_data_reset, kgr_meltdown_set_patch_state,
      __kgr_meltdown_set_patch_state,
      patch_entry_apply_start, kgr_schedule_on_each_cpu,
      kgr_kaiser_map_all_thread_stacks, kgr_perf_event_intel_map_all_ds_buffers] at hap <;>
    subst hap <;> simp_all [current_idt]
  obtain ⟨s, hs⟩ : ∃ s, w1.shared.orig_idt = some s := ⟨_, key.1⟩
  refine ⟨key.1, ?_, ?_, ?_, ?_, ?_, ?_⟩ <;>
  simp [kgr_pre_revert_callback, kgr_meltdown_patch_state, hne,
    kgr_meltdown_set_patch_state, __kgr_meltdown_set_patch_state,
    patch_entry_unapply_start, kgr_schedule_on_each_cpu,
    kgr_free_all_user_pgds, kgr_meltdown_shared_data_mark_dirty, patch_entry_drain_start,
    __uninstall_idt_table_repl, kgr_kaiser_set_kern_cr3, kgr_kaiser_set_user_cr3,
    kgr_pcid_disable_cpu, patch_entry_unapply_finish_cpu, hs, key.2]

/-- Witness of C8: first activation on two processors that run the table
`[1, 2, 3]`, with one shadow table allocated on the way. -/
theorem apply_revert_roundtrip_witness :
    ((exWorld patch_state.ps_enabled false none).shared.ps = patch_state.ps_enabled ∧
      kgr_post_patch_callback modA okOracle (exWorld patch_state.ps_enabled false none) =
        Except.ok (final (kgr_post_patch_callback modA okOracle
          (exWorld patch_state.ps_enabled false none))) ∧
      (final (kgr_post_patch_callback modA okOracle
        (exWorld patch_state.ps_enabled false none))).shared.ps = patch_state.ps_active) ∧
    (∀ c ∈ (kgr_pre_revert_callback modA
        (final (kgr_post_patch_callback modA okOracle
          (exWorld patch_state.ps_enabled false none)))).cpus,
      some c.idt = (final (kgr_post_patch_callback modA okOracle
          (exWorld patch_state.ps_enabled false none))).shared.orig_idt ∧
      c.kern_cr3 = 0 ∧ c.user_cr3 = 0) ∧
    (kgr_pre_revert_callback modA
        (final (kgr_post_patch_callback modA okOracle
          (exWorld patch_state.ps_enabled false none)))).cpus.length =
      (exWorld patch_state.ps_enabled false none).cpus.length ∧
    (kgr_pre_revert_callback modA
        (final (kgr_post_patch_callback modA okOracle
          (exWorld patch_state.ps_enabled false none)))).user_pgds = [] :=
  ⟨⟨rfl, rfl, rfl⟩,
   (apply_revert_roundtrip modA okOracle (exWorld patch_state.ps_enabled false none)
      (final (kgr_post_patch_callback modA okOracle
        (exWorld patch_state.ps_enabled false none))) rfl rfl rfl).2.1,
   (apply_revert_roundtrip modA okOracle (exWorld patch_state.ps_enabled false none)
      (final (kgr_post_patch_callback modA okOracle
        (exWorld patch_state.ps_enabled false none))) rfl rfl rfl).2.2.1,
   (apply_revert_roundtrip modA okOracle (exWorld patch_state.ps_enabled false none)
      (final (kgr_post_patch_callback modA okOracle
        (exWorld patch_state.ps_enabled false none))) rfl rfl rfl).2.2.2.1⟩

/-- C9, as stated, fails: after a Revert from phase `ps_active` the phase is
`ps_enabled`, and a second Revert changes the state: it writes the phase twice
and repeats the table removal, the dispatch to every processor, the freeing of
the shadow tables and the drain start. -/
theorem pre_revert_twice_not_noop :
    (kgr_pre_revert_callback modA
        (exWorld patch_state.ps_active false (some [1, 2, 3]))).shared.ps
      = patch_state.ps_enabled ∧
    kgr_pre_revert_callback modA
        (kgr_pre_revert_callback modA (exWorld patch_state.ps_active false (some [1, 2, 3])))
      ≠ kgr_pre_revert_callback modA (exWorld patch_state.ps_active false (some [1, 2, 3])) ∧
    (kgr_pre_revert_callback modA
        (kgr_pre_revert_callback modA
          (exWorld patch_state.ps_active false (some [1, 2, 3])))).trace
      = (kgr_pre_revert_callback modA
          (exWorld patch_state.ps_active false (some [1, 2, 3]))).trace ++
        [Event.set_patch_state patch_state.ps_enabled patch_state.ps_deactivating,
         Event.patch_entry_unapply_start,
         Event.schedule_on_each_cpu Work.uninstall_idt_table_repl,
         Event.free_all_user_pgds,
         Event.set_patch_state patch_state.ps_deactivating patch_state.ps_enabled,
         Event.mark_dirty,
         Event.patch_entry_drain_start modA.mod] := by
  decide

/-- C9, amended: a Revert entered in any phase but `ps_disabled` returns in
phase `ps_enabled` with `dirty` set and the snapshot untouched; a second Revert
right after it is not a no-op, it runs the whole teardown again (the calls of
`revert_events`, entered in phase `ps_enabled`), and it leaves the shared
record, hence `dirty` and the snapshot, exactly as the first one left them,
with no shadow table allocated and the draining flags unchanged. -/
theorem pre_revert_twice_repeats (me : Module) (w : World)
    (h : w.shared.ps ≠ patch_state.ps_disabled) :
    (kgr_pre_revert_callback me w).shared.ps = patch_state.ps_enabled ∧
    (kgr_pre_revert_callback me w).shared.dirty = true ∧
    (kgr_pre_revert_callback me w).shared.orig_idt = w.shared.orig_idt ∧
    (kgr_pre_revert_callback me (kgr_pre_revert_callback me w)).trace =
      (kgr_pre_revert_callback me w).trace ++
        revert_events patch_state.ps_enabled me.mod ∧
    (kgr_pre_revert_callback me (kgr_pre_revert_callback me w)).shared =
      (kgr_pre_revert_callback me w).shared ∧
    (kgr_pre_revert_callback me (kgr_pre_revert_callback me w)).user_pgds = [] ∧
    (kgr_pre_revert_callback me (kgr_pre_revert_callback me w)).draining =
      (kgr_pre_revert_callback me w).draining := by
  simp [kgr_pre_revert_callback, kgr_meltdown_patch_state, h,
    kgr_meltdown_set_patch_state, __kgr_meltdown_set_patch_state,
    patch_entry_unapply_start, kgr_schedule_on_each_cpu,
    kgr_free_all_user_pgds, kgr_meltdown_shared_data_mark_dirty, patch_entry_drain_start,
    revert_events]

/-- Witness of the amended C9: two Reverts of an active installation. -/
theorem pre_revert_twice_repeats_witness :
    (exWorld patch_state.ps_active false (some [1, 2, 3])).shared.ps ≠
      patch_state.ps_disabled ∧
    (kgr_pre_revert_callback modA
      (exWorld patch_state.ps_active false (some [1, 2, 3]))).shared.ps =
        patch_state.ps_enabled ∧
    (kgr_pre_revert_callback modA
      (exWorld patch_state.ps_active false (some [1, 2, 3]))).shared.dirty = true ∧
    (kgr_pre_revert_callback modA
      (exWorld patch_state.ps_active false (some [1, 2, 3]))).shared.orig_idt =
        (exWorld patch_state.ps_active false (some [1, 2, 3])).shared.orig_idt ∧
    (kgr_pre_revert_callback modA (kgr_pre_revert_callback modA
      (exWorld patch_state.ps_active false (some [1, 2, 3])))).trace =
      (kgr_pre_revert_callback modA
        (exWorld patch_state.ps_active false (some [1, 2, 3]))).trace ++
        revert_events patch_state.ps_enabled modA.mod :=
  ⟨by decide,
   (pre_revert_twice_repeats modA (exWorld patch_state.ps_active false (some [1, 2, 3]))
      (by decide)).1,
   (pre_revert_twice_repeats modA (exWorld patch_state.ps_active false (some [1, 2, 3]))
      (by decide)).2.1,
   (pre_revert_twice_repeats modA (exWorld patch_state.ps_active false (some [1, 2, 3]))
      (by decide)).2.2.1,
   (pre_revert_twice_repeats modA (exWorld patch_state.ps_active false (some [1, 2, 3]))
      (by decide)).2.2.2.1⟩

end Meltdown

/-! ## Theorems: phase writes along sequences of calls -/

namespace Meltdown

/-- Every edge of the spec is among the writes the callbacks may perform. -/
theorem code_edge_of_spec_edge (p : patch_state × patch_state)
    (h : spec_edge p = true) : code_edge p = true := by
  simp [code_edge, h]

/-- Apply entered in a phase other than `ps_deactivating` only appends calls to
the log, writes the phase along edges of the spec, and does not return in
`ps_deactivating`. -/
theorem apply_spec_edges (me : Module) (o : Oracle) (w : World)
    (h : w.shared.ps ≠ patch_state.ps_deactivating) :
    ∃ l, (final (kgr_post_patch_callback me o w)).trace = w.trace ++ l ∧
      (∀ p ∈ phase_writes l, spec_edge p = true) ∧
      (final (kgr_post_patch_callback me o w)).shared.ps ≠ patch_state.ps_deactivating := by
  refine ⟨(final (kgr_post_patch_callback me o w)).trace.drop w.trace.length, ?_⟩
  cases hps : w.shared.ps
  · simp [final, kgr_post_patch_callback, kgr_meltdown_patch_state, hps, phase_writes]
  · cases hd : w.shared.dirty <;> by_cases hr : o.reset_ret = 0 <;>
    by_cases h1 : o.map_stacks_ret = 0 <;> by_cases h2 : o.map_ds_ret = 0 <;>
    simp [final, kgr_post_patch_callback, kgr_meltdown_patch_state, hps, hd, hr, h1, h2,
      kgr_meltdown_shared_data_reset, kgr_meltdown_set_patch_state,
      __kgr_meltdown_set_patch_state,
      patch_entry_apply_start, kgr_schedule_on_each_cpu,
      kgr_kaiser_map_all_thread_stacks, kgr_perf_event_intel_map_all_ds_buffers,
      phase_writes, spec_edge]
  · by_cases h1 : o.map_stacks_ret = 0 <;> by_cases h2 : o.map_ds_ret = 0 <;>
    simp [final, kgr_post_patch_callback, kgr_meltdown_patch_state, hps, h1, h2,
      kgr_meltdown_set_patch_state, __kgr_meltdown_set_patch_state,
      patch_entry_apply_start, kgr_schedule_on_each_cpu,
      kgr_kaiser_map_all_thread_stacks, kgr_perf_event_intel_map_all_ds_buffers,
      phase_writes, spec_edge]
  · cases hp : w.shared.prev_patch_entry_drain_start <;>
    simp [final, kgr_post_patch_callback, kgr_meltdown_patch_state, hps, hp,
      patch_entry_apply_start, kgr_schedule_on_each_cpu, patch_entry_drain_start,
      phase_writes]
  · exact absurd hps h

/-- Revert entered in a phase other than `ps_deactivating` only appends calls to
the log, writes the phase along `code_edge`, and does not return in
`ps_deactivating`. -/
theorem revert_code_edges (me : Module) (w : World)
    (h : w.shared.ps ≠ patch_state.ps_deactivating) :
    ∃ l, (kgr_pre_revert_callback me w).trace = w.trace ++ l ∧
      (∀ p ∈ phase_writes l, code_edge p = true) ∧
      (kgr_pre_revert_callback me w).shared.ps ≠ patch_state.ps_deactivating := by
  refine ⟨(kgr_pre_revert_callback me w).trace.drop w.trace.length, ?_⟩
  cases hps : w.shared.ps
  · simp [kgr_pre_revert_callback, kgr_meltdown_patch_state, hps, phase_writes]
  all_goals
    first
    | exact absurd hps h
    | simp [kgr_pre_revert_callback, kgr_meltdown_patch_state, hps,
        kgr_meltdown_set_patch_state, __kgr_meltdown_set_patch_state,
    patch_entry_unapply_start, kgr_schedule_on_each_cpu,
        kgr_free_all_user_pgds, kgr_meltdown_shared_data_mark_dirty,
        patch_entry_drain_start, phase_writes, code_edge, spec_edge]

/-- One entry point, entered in a phase other than `ps_deactivating`. -/
theorem step_code_edges (op : Op) (w : World)
    (h : w.shared.ps ≠ patch_state.ps_deactivating) :
    ∃ l, (final (step op w)).trace = w.trace ++ l ∧
      (∀ p ∈ phase_writes l, code_edge p = true) ∧
      (final (step op w)).shared.ps ≠ patch_state.ps_deactivating := by
  cases op with
  | apply me o =>
    obtain ⟨l, ht, he, hp⟩ := apply_spec_edges me o w h
    exact ⟨l, ht, fun p hp1 => code_edge_of_spec_edge p (he p hp1), hp⟩
  | revert me => exact revert_code_edges me w h
  | replace me new_mod =>
    by_cases hdis : w.shared.ps = patch_state.ps_disabled
    · exact ⟨[], by simp [step, final, kgr_pre_replace_callback, kgr_meltdown_patch_state,
        hdis, phase_writes]⟩
    · cases hB : kgr_is_meltdown_patcher new_mod w
      · have e : kgr_pre_replace_callback me new_mod w = kgr_pre_revert_callback me w := by
          simp [kgr_pre_replace_callback, kgr_meltdown_patch_state, hdis, hB]
        simpa [step, final, e] using revert_code_edges me w h
      · exact ⟨[], by simp [step, final, kgr_pre_replace_callback, kgr_meltdown_patch_state,
          hdis, hB, phase_writes, h]⟩

/-- A sequence of entry points, started in a phase other than
`ps_deactivating`. -/
theorem run_code_edges (ops : List Op) (w : World)
    (h : w.shared.ps ≠ patch_state.ps_deactivating) :
    ∃ l, (final (run ops w)).trace = w.trace ++ l ∧
      (∀ p ∈ phase_writes l, code_edge p = true) ∧
      (final (run ops w)).shared.ps ≠ patch_state.ps_deactivating := by
  induction ops generalizing w with
  | nil => exact ⟨[], by simp [run, final, phase_writes, h]⟩
  | cons op rest ih =>
    obtain ⟨l1, ht1, he1, hp1⟩ := step_code_edges op w h
    cases hs : step op w with
    | error w1 =>
      rw [hs] at ht1 hp1
      exact ⟨l1, by simpa [run, hs, final] using ht1, he1, by simpa [run, hs, final] using hp1⟩
    | ok w1 =>
      rw [hs] at ht1 hp1
      simp only [final] at ht1 hp1
      obtain ⟨l2, ht2, he2, hp2⟩ := ih w1 hp1
      refine ⟨l1 ++ l2, ?_, ?_, ?_⟩
      · simp [run, hs, ht2, ht1]
      · intro p hp
        simp only [phase_writes, List.filterMap_append, List.mem_append] at hp
        rcases hp with hp | hp
        · exact he1 p hp
        · exact he2 p hp
      · simpa [run, hs] using hp2

/-- C10, as stated, fails: Apply, Revert, Revert from phase `ps_enabled` writes
the phase from `ps_enabled` to `ps_deactivating` in the second Revert, which is
no edge of the state machine. -/
theorem phase_write_off_spec_edge :
    ¬ (∀ p ∈ phase_writes
          (final (run [Op.apply modA okOracle, Op.revert modA, Op.revert modA]
            (exWorld patch_state.ps_enabled false none))).trace,
        spec_edge p = true) := by
  decide

/-- C10, amended: along every finite sequence of Apply, Revert and Replace calls
started in a phase at rest (any but `ps_deactivating`), each call only appends
to the log, every phase write is an edge of the spec or the entry into
`ps_deactivating` from `ps_enabled` or `ps_activating`, and the phase at rest is
never `ps_deactivating`; the writes of Apply alone are edges of the spec; and
the locked section of the initialisation writes `ps_disabled → ps_enabled` when
it finds `ps_disabled` and nothing otherwise. -/
theorem lifecycle_phase_writes (ops : List Op) (me : Module) (o : Oracle) (w : World)
    (h : w.shared.ps ≠ patch_state.ps_deactivating) :
    (∃ l, (final (run ops w)).trace = w.trace ++ l ∧
      (∀ p ∈ phase_writes l, code_edge p = true) ∧
      (final (run ops w)).shared.ps ≠ patch_state.ps_deactivating) ∧
    (∃ l, (final (kgr_post_patch_callback me o w)).trace = w.trace ++ l ∧
      (∀ p ∈ phase_writes l, spec_edge p = true)) ∧
    (kgr_patch_meltdown_init_locked me w).trace =
      w.trace ++
        (if w.shared.ps = patch_state.ps_disabled then
           [Event.set_patch_state patch_state.ps_disabled patch_state.ps_enabled]
         else []) ++
        [Event.register_patcher me.mod] := by
  refine ⟨run_code_edges ops w h, ?_, ?_⟩
  · obtain ⟨l, ht, he, _⟩ := apply_spec_edges me o w h
    exact ⟨l, ht, he⟩
  · by_cases hd : w.shared.ps = patch_state.ps_disabled <;>
    simp [kgr_patch_meltdown_init_locked, kgr_meltdown_patch_state, hd,
      __kgr_meltdown_set_patch_state, __kgr_meltdown_register_patcher]

/-- Witness of the amended C10: Apply, Revert, Revert from phase `ps_enabled`. -/
theorem lifecycle_phase_writes_witness :
    (exWorld patch_state.ps_enabled false none).shared.ps ≠ patch_state.ps_deactivating ∧
    ∃ l, (final (run [Op.apply modA okOracle, Op.revert modA, Op.revert modA]
          (exWorld patch_state.ps_enabled false none))).trace =
        (exWorld patch_state.ps_enabled false none).trace ++ l ∧
      (∀ p ∈ phase_writes l, code_edge p = true) ∧
      (final (run [Op.apply modA okOracle, Op.revert modA, Op.revert modA]
          (exWorld patch_state.ps_enabled false none))).shared.ps ≠
        patch_state.ps_deactivating :=
  ⟨by decide,
   (lifecycle_phase_writes [Op.apply modA okOracle, Op.revert modA, Op.revert modA]
      modA okOracle (exWorld patch_state.ps_enabled false none) (by decide)).1⟩

end Meltdown
